import Mathlib

/-!
Verification of the nanobrowser structured-output pipeline and step orchestrator.

The definitions below are a shallow embedding of the TypeScript sources:
  chrome-extension/src/background/agent/validation/json-validator.ts
  chrome-extension/src/background/agent/messages/utils.ts (JSONResponseMonitor)
  chrome-extension/src/background/agent/agents/planner.ts
  chrome-extension/src/background/index.ts (BaseAgent)
  chrome-extension/src/background/agent/executor.ts
JSON values are modelled by an inductive type; JavaScript objects are association
lists of string keys (unique keys for objects produced by JSON.parse); object
literal construction followed by spread is modelled by in-place overwrite with
append, matching JavaScript property-order semantics.
-/

/-- A JSON value as produced by JSON.parse: null, boolean, number, string,
array, or object (association list of fields in property order). -/
inductive JVal where
  | null
  | bool (b : Bool)
  | num (n : Int)
  | str (s : String)
  | arr (xs : List JVal)
  | obj (fields : List (String × JVal))

/-- JavaScript truthiness of a JSON value: null, false, 0 and the empty string
are falsy; every array and object (including empty ones) is truthy. -/
def truthy : JVal → Bool
  | .null => false
  | .bool b => b
  | .num n => !(n == 0)
  | .str s => !(s == "")
  | .arr _ => true
  | .obj _ => true

/-- Property lookup on an object, first matching key (objects from JSON.parse
have unique keys, so this is the JavaScript property read). -/
def getField : List (String × JVal) → String → Option JVal
  | [], _ => none
  | (k', v) :: rest, k => if k' = k then some v else getField rest k

/-- Helper for `setField`: replace every field named `k` by `(k, v)` keeping
its position. -/
def setFieldMap (k : String) (v : JVal) : List (String × JVal) → List (String × JVal)
  | [] => []
  | (k', v') :: rest =>
      if k' = k then (k, v) :: setFieldMap k v rest
      else (k', v') :: setFieldMap k v rest

/-- JavaScript property write: overwrite in place when the key exists,
otherwise append, preserving property order. -/
def setField (o : List (String × JVal)) (k : String) (v : JVal) : List (String × JVal) :=
  if o.any (fun p => decide (p.1 = k)) then setFieldMap k v o
  else o ++ [(k, v)]

/-- The object spread `\x7b ...base, ...data \x7d`: every field of `data` is
written over `base` in order. -/
def spreadInto (base : List (String × JVal)) (data : List (String × JVal)) :
    List (String × JVal) :=
  data.foldl (fun acc p => setField acc p.1 p.2) base

/-- Key uniqueness of an association list, an invariant of every object
returned by JSON.parse. -/
def uniqKeysB : List (String × JVal) → Bool
  | [] => true
  | p :: rest => !(rest.any (fun q => decide (q.1 = p.1))) && uniqKeysB rest

/-- Model of the JavaScript toLowerCase call (ASCII case folding, which covers
every string the validator compares). -/
def toLowerStr (s : String) : String :=
  String.mk (s.data.map Char.toLower)

/-- Helper for `strContains`: does `needle` occur as a contiguous run inside
the character list? -/
def strContainsAux (needle : List Char) : List Char → Bool
  | [] => needle.isPrefixOf []
  | c :: rest => needle.isPrefixOf (c :: rest) || strContainsAux needle rest

/-- Model of the JavaScript String.prototype.includes call. -/
def strContains (haystack needle : String) : Bool :=
  strContainsAux needle.data haystack.data

/-- Model of the JavaScript substring(0, n) call. -/
def takeStr (s : String) (n : Nat) : String :=
  String.mk (s.data.take n)

/-- Model of the JavaScript trim call: strip whitespace from both ends. -/
def trimStr (s : String) : String :=
  String.mk (((s.data.dropWhile Char.isWhitespace).reverse.dropWhile Char.isWhitespace).reverse)

/-- The two agent roles handled by the validator (the TS literal union
sent to detectAgentType, fixInvalidJSON and createFallbackResponse). -/
inductive AgentKind where
  | planner
  | navigator
deriving Repr, DecidableEq

/-- The agentType field of a ValidationResult (TS union with unknown). -/
inductive AgentTypeField where
  | planner
  | navigator
  | unknown
deriving Repr, DecidableEq

/-- The expectedType argument of validateResponse and monitorResponse. -/
inductive ExpectedType where
  | planner
  | navigator
  | auto
deriving Repr, DecidableEq

def kindToField : AgentKind → AgentTypeField
  | .planner => .planner
  | .navigator => .navigator

/-- Navigator keyword list from detectAgentType in json-validator.ts.
Note the eleventh entry: the source list contains the keyword done. -/
def navigatorKeywords : List String :=
  ["current_state", "action", "evaluation_previous_goal", "memory", "next_goal",
   "click_element", "go_to_url", "input_text", "done", "navigate", "browser"]

/-- Planner keyword list from detectAgentType in json-validator.ts. -/
def plannerKeywords : List String :=
  ["observation", "challenges", "next_steps", "final_answer", "reasoning", "web_task"]

/-- detectAgentType from json-validator.ts: a context heuristic first, then
case-insensitive keyword scoring; navigator wins only on a strictly higher
score. -/
def detectAgentType (response : String) (context : Option String) : AgentKind :=
  let lowerResponse := toLowerStr response
  let lowerContext := (context.map toLowerStr).getD ""
  if strContains lowerContext "navigator" || strContains lowerContext "L9." then .navigator
  else if strContains lowerContext "planner" || strContains lowerContext "D9." then .planner
  else
    let navigatorScore := (navigatorKeywords.filter (fun kw => strContains lowerResponse kw)).length
    let plannerScore := (plannerKeywords.filter (fun kw => strContains lowerResponse kw)).length
    if navigatorScore > plannerScore then .navigator else .planner

/-- The spec section 4.2 navigator keyword set (ten keywords, without done),
transcribed from the claim for comparison with the source classifier. -/
def specClaimNavigatorKeywords : List String :=
  ["current_state", "action", "evaluation_previous_goal", "memory", "next_goal",
   "click_element", "go_to_url", "input_text", "navigate", "browser"]

/-- The spec section 4.2 planner keyword set, transcribed from the claim. -/
def specClaimPlannerKeywords : List String :=
  ["observation", "challenges", "next_steps", "final_answer", "reasoning", "web_task"]

/-- The claim C8 classifier, transcribed from the spec wording: count
case-insensitive keyword hits of the two spec sets; Navigator exactly when its
score is strictly higher, Planner on ties and all-zero scores. -/
def detectAgentTypeClaim (response : String) : AgentKind :=
  let nav := specClaimNavigatorKeywords.countP (fun kw => strContains (toLowerStr response) kw)
  let pla := specClaimPlannerKeywords.countP (fun kw => strContains (toLowerStr response) kw)
  if nav > pla then .navigator else .planner

/-- The amended classifier: identical to the claim wording except that the
navigator keyword set additionally contains done, as in the source. -/
def detectAgentTypeAmended (response : String) : AgentKind :=
  let nav := navigatorKeywords.countP (fun kw => strContains (toLowerStr response) kw)
  let pla := plannerKeywords.countP (fun kw => strContains (toLowerStr response) kw)
  if nav > pla then .navigator else .planner

def isStr : JVal → Bool
  | .str _ => true
  | _ => false

def isBool : JVal → Bool
  | .bool _ => true
  | _ => false

def isStrOpt : Option JVal → Bool
  | some (.str _) => true
  | _ => false

def isBoolOpt : Option JVal → Bool
  | some (.bool _) => true
  | _ => false

/-- zod union z.string().nullable() used for final_answer in plannerSchema. -/
def isStrOrNullOpt : Option JVal → Bool
  | some (.str _) => true
  | some .null => true
  | _ => false

/-- zod union of z.boolean() and z.string() used for web_task in plannerSchema:
an arbitrary string is accepted and not coerced. -/
def isBoolOrStrOpt : Option JVal → Bool
  | some (.bool _) => true
  | some (.str _) => true
  | _ => false

/-- Modelled from the spec: agentBrainSchema lives in agent/types.ts which is
not part of src; per section 3 of the spec it is an object with the three
string fields evaluation_previous_goal, memory and next_goal. -/
def agentBrainValid : JVal → Bool
  | .obj o =>
      isStrOpt (getField o "evaluation_previous_goal") && isStrOpt (getField o "memory")
        && isStrOpt (getField o "next_goal")
  | _ => false

/-- plannerSchema from json-validator.ts: observation, challenges, next_steps,
reasoning strings; done a literal boolean; final_answer string or null;
web_task boolean or arbitrary string (zod objects accept extra keys). -/
def plannerSchemaValid : JVal → Bool
  | .obj o =>
      isStrOpt (getField o "observation") && isBoolOpt (getField o "done")
        && isStrOpt (getField o "challenges") && isStrOpt (getField o "next_steps")
        && isStrOrNullOpt (getField o "final_answer") && isStrOpt (getField o "reasoning")
        && isBoolOrStrOpt (getField o "web_task")
  | _ => false

def isRecordJson : JVal → Bool
  | .obj _ => true
  | _ => false

/-- The current_state field check of the navigator schema. -/
def brainFieldOk : Option JVal → Bool
  | some cs => agentBrainValid cs
  | none => false

/-- The action field check of the navigator schema: an array of records. -/
def actionFieldRecords : Option JVal → Bool
  | some (.arr xs) => xs.all isRecordJson
  | _ => false

/-- navigatorSchema from json-validator.ts (rebuilt inline inside
validateAgainstSchema): current_state against agentBrainSchema and action an
array of records. -/
def navigatorSchemaValid : JVal → Bool
  | .obj o =>
      brainFieldOk (getField o "current_state")
        && actionFieldRecords (getField o "action")
  | _ => false

/-- validateAgainstSchema from json-validator.ts, as the success bit of the
zod parse (errors are diagnostic strings only). -/
def validateAgainstSchema (data : JVal) : AgentKind → Bool
  | .planner => plannerSchemaValid data
  | .navigator => navigatorSchemaValid data

/-- JavaScript `data.k || dflt` on a parsed record: the field when present and
truthy, otherwise the default. -/
def jsOr (data : List (String × JVal)) (k : String) (dflt : JVal) : JVal :=
  match getField data k with
  | some v => if truthy v then v else dflt
  | none => dflt

/-- JavaScript `data.k ?? dflt` on a parsed record: the field unless it is
null or absent (undefined). -/
def jsNullish (data : List (String × JVal)) (k : String) (dflt : JVal) : JVal :=
  match getField data k with
  | some .null => dflt
  | some v => v
  | none => dflt

/-- The planner object literal built by fixInvalidJSON before the trailing
spread of data. -/
def plannerFixSkeleton (data : List (String × JVal)) : List (String × JVal) :=
  [("observation", jsOr data "observation" (.str "AI response received but incomplete")),
   ("done", jsNullish data "done" (.bool false)),
   ("challenges", jsOr data "challenges" (.str "")),
   ("next_steps", jsOr data "next_steps" (.str "Continue with task execution")),
   ("final_answer", jsOr data "final_answer" (.str "")),
   ("reasoning", jsOr data "reasoning" (.str "Processing user request")),
   ("web_task", jsNullish data "web_task" (.bool true))]

/-- The default current_state object of the navigator repair skeleton. -/
def navigatorDefaultState : JVal :=
  .obj [("evaluation_previous_goal", .str "Unknown - processing request"),
        ("memory", .str "Received AI response"),
        ("next_goal", .str "Continue task execution")]

/-- The default one-element action array of the navigator repair skeleton. -/
def navigatorDefaultActions : JVal :=
  .arr [.obj [("go_to_url",
    .obj [("intent", .str "Navigate to requested website"),
          ("url", .str "https://www.google.com")])]]

/-- The navigator object literal built by fixInvalidJSON before the trailing
spread of data. -/
def navigatorFixSkeleton (data : List (String × JVal)) : List (String × JVal) :=
  [("current_state", jsOr data "current_state" navigatorDefaultState),
   ("action", jsOr data "action" navigatorDefaultActions)]

/-- fixInvalidJSON from json-validator.ts: a role-specific literal of defaults
for missing or falsy fields, followed by the spread of the whole input record,
which writes every present input field over the literal. -/
def fixInvalidJSON (data : List (String × JVal)) : AgentKind → List (String × JVal)
  | .planner => spreadInto (plannerFixSkeleton data) data
  | .navigator => spreadInto (navigatorFixSkeleton data) data

/-- Modelled from the spec (claim C1 wording): the planner role contract,
all seven fields present with correct primitive types. -/
def plannerContract : JVal → Bool
  | .obj o =>
      isStrOpt (getField o "observation") && isBoolOpt (getField o "done")
        && isStrOpt (getField o "challenges") && isStrOpt (getField o "next_steps")
        && isStrOrNullOpt (getField o "final_answer") && isStrOpt (getField o "reasoning")
        && isBoolOpt (getField o "web_task")
  | _ => false

/-- The action field check of the spec non-empty-action invariant. -/
def actionFieldNonEmpty : Option JVal → Bool
  | some (.arr xs) => !xs.isEmpty
  | _ => false

/-- Modelled from the spec (claim C1 wording): the navigator role contract,
current_state with its three string sub-fields and a non-empty action
sequence. -/
def navigatorContract : JVal → Bool
  | .obj o =>
      brainFieldOk (getField o "current_state")
        && actionFieldNonEmpty (getField o "action")
  | _ => false

/-- Field-wise validity of a planner record field, following the claim C1
reading of individually valid input fields. -/
def plannerFieldValid (k : String) (v : JVal) : Bool :=
  if k = "observation" then isStr v
  else if k = "done" then isBool v
  else if k = "challenges" then isStr v
  else if k = "next_steps" then isStr v
  else if k = "final_answer" then isStrOrNullOpt (some v)
  else if k = "reasoning" then isStr v
  else if k = "web_task" then isBool v
  else true

/-- Field-wise validity of a navigator record field, following the claim C1
reading of individually valid input fields. -/
def navigatorFieldValid (k : String) (v : JVal) : Bool :=
  if k = "current_state" then agentBrainValid v
  else if k = "action" then actionFieldNonEmpty (some v)
  else true

def roleContract : AgentKind → JVal → Bool
  | .planner => plannerContract
  | .navigator => navigatorContract

def roleFieldValid : AgentKind → String → JVal → Bool
  | .planner => plannerFieldValid
  | .navigator => navigatorFieldValid

/-- PlannerOutput from planner.ts: the type inferred from plannerOutputSchema,
with done and web_task as genuine booleans after coercion. -/
structure PlannerOut where
  observation : String
  done : Bool
  challenges : String
  next_steps : String
  final_answer : String
  reasoning : String
  web_task : Bool
deriving Repr, DecidableEq

/-- The zod union used by plannerOutputSchema in planner.ts for done and
web_task: a literal boolean, or a string whose lowercase form is true or
false (any other string makes the transform throw, failing the parse). -/
def coerceBoolField : JVal → Option Bool
  | .bool b => some b
  | .str s =>
      if toLowerStr s = "true" then some true
      else if toLowerStr s = "false" then some false
      else none
  | _ => none

/-- The zod string field parse used by plannerOutputSchema. -/
def parseStrField (o : List (String × JVal)) (k : String) : Option String :=
  match getField o k with
  | some (.str s) => some s
  | _ => none

/-- The field part of plannerOutputSchema.parse from planner.ts: all seven
fields required, observation, challenges, next_steps, final_answer and
reasoning strings (final_answer is not nullable here), done and web_task
through the boolean coercion union. -/
def plannerOutputParseFields (o : List (String × JVal)) : Option PlannerOut :=
  match parseStrField o "observation", parseStrField o "challenges",
        (getField o "done").bind coerceBoolField, parseStrField o "next_steps",
        parseStrField o "final_answer", parseStrField o "reasoning",
        (getField o "web_task").bind coerceBoolField with
  | some obs, some ch, some dn, some ns, some fa, some rs, some wt =>
      some { observation := obs, done := dn, challenges := ch, next_steps := ns,
             final_answer := fa, reasoning := rs, web_task := wt }
  | _, _, _, _, _, _, _ => none

/-- plannerOutputSchema.parse from planner.ts: a zod object, so any
non-object input fails. -/
def plannerOutputParse : JVal → Option PlannerOut
  | .obj o => plannerOutputParseFields o
  | _ => none

/-- createFallbackResponse from json-validator.ts: the role-specific record
built when every JSON extraction strategy failed. -/
def createFallbackResponse (agentType : AgentKind) (originalResponse : String) :
    List (String × JVal) :=
  let responseSnippet := trimStr (takeStr originalResponse 200)
  match agentType with
  | .planner =>
      [("observation", .str ("AI returned non-JSON response: " ++ responseSnippet)),
       ("done", .bool false),
       ("challenges", .str "AI model returned plain text instead of structured JSON"),
       ("next_steps", .str "Continue with task using available actions"),
       ("final_answer", .str ""),
       ("reasoning", .str "Creating fallback response due to JSON parsing failure"),
       ("web_task", .bool true)]
  | .navigator =>
      [("current_state",
        .obj [("evaluation_previous_goal", .str "Unknown - AI response was not in JSON format"),
              ("memory", .str ("AI response: " ++ responseSnippet)),
              ("next_goal", .str "Continue with task execution")]),
       ("action",
        .arr [.obj [("go_to_url",
          .obj [("intent", .str "Navigate as requested"),
                ("url", .str "https://www.google.com")])]])]

/-- The outcome of extractJSON in json-validator.ts. The five extraction
strategies parse raw text with JSON.parse and regular expressions, all inside
try/catch, so extraction is total: it either fails with the accumulated error
list or yields a parsed JSON value. The strategies are modelled by this
outcome type; every theorem about the pipeline quantifies over it. -/
inductive ExtractOutcome where
  | failed (errors : List String)
  | extracted (data : JVal)

/-- The fields of a parsed JSON value as seen by property access and spread
(non-objects expose no relevant own properties). -/
def jsFields : JVal → List (String × JVal)
  | .obj o => o
  | _ => []

/-- ValidationResult from json-validator.ts. -/
structure ValidationResult where
  isValid : Bool
  originalResponse : String
  parsedJson : Option JVal := none
  validatedData : Option JVal := none
  errors : List String
  agentType : AgentTypeField
  correctedResponse : Option JVal := none

/-- Step 1 of validateResponse: the role is the caller hint, or the
classifier result when the hint is auto. -/
def resolveAgentKind (rawResponse : String) (expectedType : ExpectedType)
    (context : Option String) : AgentKind :=
  match expectedType with
  | .auto => detectAgentType rawResponse context
  | .planner => .planner
  | .navigator => .navigator

/-- validateResponse from json-validator.ts: detect the role (hint or
classifier), then extraction; on failure answer with createFallbackResponse,
on schema failure with fixInvalidJSON, and mark every branch isValid. -/
def validateResponse (extract : ExtractOutcome) (rawResponse : String)
    (expectedType : ExpectedType) (context : Option String) : ValidationResult :=
  match extract with
  | .failed errs =>
      { isValid := true, originalResponse := rawResponse, errors := errs,
        agentType := kindToField (resolveAgentKind rawResponse expectedType context),
        correctedResponse := some (.obj (createFallbackResponse
          (resolveAgentKind rawResponse expectedType context) rawResponse)),
        validatedData := some (.obj (createFallbackResponse
          (resolveAgentKind rawResponse expectedType context) rawResponse)) }
  | .extracted data =>
      if truthy data = false then
        { isValid := true, originalResponse := rawResponse, parsedJson := some data,
          errors := ["No parsed JSON available"],
          agentType := kindToField (resolveAgentKind rawResponse expectedType context),
          correctedResponse := some (.obj (createFallbackResponse
            (resolveAgentKind rawResponse expectedType context) rawResponse)),
          validatedData := some (.obj (createFallbackResponse
            (resolveAgentKind rawResponse expectedType context) rawResponse)) }
      else if validateAgainstSchema data (resolveAgentKind rawResponse expectedType context)
          = false then
        { isValid := true, originalResponse := rawResponse, parsedJson := some data,
          errors := ["schema validation failed"],
          agentType := kindToField (resolveAgentKind rawResponse expectedType context),
          correctedResponse := some (.obj (fixInvalidJSON (jsFields data)
            (resolveAgentKind rawResponse expectedType context))),
          validatedData := some (.obj (fixInvalidJSON (jsFields data)
            (resolveAgentKind rawResponse expectedType context))) }
      else
        { isValid := true, originalResponse := rawResponse, parsedJson := some data,
          validatedData := some data, errors := [],
          agentType := kindToField (resolveAgentKind rawResponse expectedType context) }

/-- The counter state of JSONResponseMonitor in messages/utils.ts. -/
structure MonitorState where
  responseCount : Nat
  successCount : Nat
  correctionCount : Nat
  failureCount : Nat
  monitoringActive : Bool
deriving Repr, DecidableEq

/-- createBypassResult from messages/utils.ts, returned when monitoring is
disabled. -/
def createBypassResult (response : String) : ValidationResult :=
  { isValid := true, originalResponse := response, agentType := .unknown, errors := [],
    validatedData := some (.obj [("bypass", .bool true)]) }

/-- createEmergencyFallback from messages/utils.ts (the monitor variant). -/
def monitorEmergencyFallback (agentType : AgentKind) (response : String) :
    List (String × JVal) :=
  match agentType with
  | .planner =>
      [("observation",
        .str ("Monitor emergency fallback - original response: " ++ takeStr response 100)),
       ("done", .bool false),
       ("challenges", .str "JSON monitoring system crashed"),
       ("next_steps", .str "Continue with emergency procedures"),
       ("final_answer", .str ""),
       ("reasoning", .str "Emergency fallback due to monitor failure"),
       ("web_task", .bool true)]
  | .navigator =>
      [("current_state",
        .obj [("evaluation_previous_goal", .str "Monitor emergency fallback"),
              ("memory", .str ("Monitor crashed, original response: " ++ takeStr response 100)),
              ("next_goal", .str "Execute emergency action")]),
       ("action",
        .arr [.obj [("go_to_url",
          .obj [("intent", .str "Emergency navigation to safe page"),
                ("url", .str "https://www.google.com")])]])]

/-- createEmergencyResult from messages/utils.ts: the best-guessed role is
navigator when the hint was auto, and the corrected response is the emergency
fallback. -/
def createEmergencyResult (response : String) (agentType : ExpectedType)
    (errMsg : String) : ValidationResult :=
  let detectedType : AgentKind :=
    match agentType with
    | .auto => .navigator
    | .planner => .planner
    | .navigator => .navigator
  { isValid := true, originalResponse := response, agentType := kindToField detectedType,
    errors := ["Monitor crashed: " ++ errMsg],
    correctedResponse := some (.obj (monitorEmergencyFallback detectedType response)) }

/-- monitorResponse from messages/utils.ts. The try block contains exactly one
fallible step, the awaited validateResponse call (the additional checks and
statistics logging only write to the console), so the block outcome is passed
as an Except value: ok carries the ValidationResult, error models a crash
caught by the catch branch. -/
def monitorResponse (st : MonitorState) (response : String)
    (inner : Except String ValidationResult) (agentType : ExpectedType) :
    MonitorState × ValidationResult :=
  if st.monitoringActive = false then (st, createBypassResult response)
  else
    let st1 := { st with responseCount := st.responseCount + 1 }
    match inner with
    | .ok validationResult =>
        let st2 :=
          if validationResult.isValid then
            if validationResult.correctedResponse.isSome then
              { st1 with correctionCount := st1.correctionCount + 1 }
            else { st1 with successCount := st1.successCount + 1 }
          else { st1 with failureCount := st1.failureCount + 1 }
        (st2, validationResult)
    | .error e =>
        ({ st1 with failureCount := st1.failureCount + 1 },
         createEmergencyResult response agentType e)

/-- monitorResponse composed with the real validateResponse, the non-crashing
run of the try block. -/
def monitorResponseRun (st : MonitorState) (extract : ExtractOutcome)
    (response : String) (agentType : ExpectedType) (context : Option String) :
    MonitorState × ValidationResult :=
  monitorResponse st response
    (.ok (validateResponse extract response agentType context)) agentType

/-- resetStatistics from messages/utils.ts. -/
def resetStatistics (st : MonitorState) : MonitorState :=
  { st with responseCount := 0, successCount := 0, correctionCount := 0, failureCount := 0 }

/-- getStatistics from messages/utils.ts (counter part; the percentage rates
are derived display values). -/
def getStatistics (st : MonitorState) : Nat × Nat × Nat × Nat :=
  (st.responseCount, st.successCount, st.correctionCount, st.failureCount)

/-- Classification of an underlying LLM call error as seen inside
BaseAgent.invoke: isAbortedError singles out cancelled requests; everything
else (including authentication and forbidden responses) is an ordinary error
carrying a message. -/
inductive LLMError where
  | aborted
  | other (msg : String)
deriving Repr, DecidableEq

/-- The outcome of the structured-output call in BaseAgent.invoke:
a parsed value, a response without a parsed field, or a thrown error. -/
inductive StructuredOutcome (α : Type) where
  | parsed (out : α)
  | noParsed
  | failed (e : LLMError)
deriving Repr

/-- An error propagated out of BaseAgent.invoke: a rethrown aborted error or
a thrown Error with a message. -/
inductive InvokeErrorK where
  | aborted
  | thrown (msg : String)
deriving Repr, DecidableEq

/-- isLlamaModel from index.ts. -/
def isLlamaModel (modelName : String) : Bool :=
  strContains modelName "Llama-4" || strContains modelName "Llama-3.3"
    || strContains modelName "llama-3.3"

/-- setWithStructuredOutput from index.ts: deepseek reasoner models, the G4F
provider and Llama models start on the manual path. -/
def setWithStructuredOutput (modelName provider : String) : Bool :=
  if modelName = "deepseek-reasoner" || modelName = "deepseek-r1" then false
  else if provider = "g4f" then false
  else if provider = "llama" || isLlamaModel modelName then false
  else true

/-- The manual extraction path of BaseAgent.invoke, abstracted over its LLM
call and monitor pipeline outcome: some output on success, none when no
parseable response was produced, or a thrown LLM error which is rethrown.
The first component of the result is the adapter flag after the call. -/
def invokeManualPath {α : Type} (flag : Bool) (manual : Except LLMError (Option α)) :
    Except InvokeErrorK (Bool × α) :=
  match manual with
  | .ok (some out) => .ok (flag, out)
  | .ok none => .error (.thrown "Could not parse response")
  | .error .aborted => .error .aborted
  | .error (.other m) => .error (.thrown m)

/-- BaseAgent.invoke from index.ts, as a function of the instance flag, the
provider, and the outcomes of the structured and manual calls. On a
structured-path failure only isAbortedError is checked before the G4F
fallback, which permanently clears the flag and continues with the manual
path in the same call; any other provider propagates a wrapped error. -/
def invokeAgent {α : Type} (withStructuredOutput : Bool) (provider : String)
    (structured : StructuredOutcome α) (manual : Except LLMError (Option α)) :
    Except InvokeErrorK (Bool × α) :=
  if withStructuredOutput then
    match structured with
    | .parsed out => .ok (withStructuredOutput, out)
    | .noParsed => .error (.thrown "Could not parse response with structured output")
    | .failed .aborted => .error .aborted
    | .failed (.other m) =>
        if provider = "g4f" then invokeManualPath false manual
        else .error (.thrown ("Failed to invoke with structured output: " ++ m))
  else invokeManualPath withStructuredOutput manual

/-- The loop-detection fields of the Executor. -/
structure ExecutorLoopState where
  lastPlannerOutput : Option String
  repetitiveActionCount : Nat
deriving Repr, DecidableEq

/-- MAX_REPETITIVE_ACTIONS from executor.ts. -/
def maxRepetitiveActions : Nat := 3

/-- The planner signature compared by the repetition guard:
`result.next_steps || result.observation || ''` with JavaScript falsiness of
the empty string. -/
def plannerSignature (p : PlannerOut) : String :=
  if p.next_steps ≠ "" then p.next_steps
  else if p.observation ≠ "" then p.observation
  else ""

/-- The synthesized terminal plan from executor.ts runPlanner. -/
def forceCompletionPlan : PlannerOut :=
  { observation := "Detected repetitive behavior - completing task to prevent infinite loop",
    done := true,
    challenges := "System detected potential infinite loop",
    next_steps := "Task completed due to loop prevention",
    final_answer := "Task stopped to prevent infinite execution loop",
    reasoning := "Loop detection mechanism activated",
    web_task := true }

/-- runPlanner from executor.ts, restricted to its repetition handling: given
the loop-detection state and the planner call result (none when the call
failed and was swallowed by the catch), produce the new state and the
effective plan. The guard requires the stored signature to be truthy (a
non-empty string) before comparing. -/
def runPlannerStep (st : ExecutorLoopState) (callResult : Option PlannerOut) :
    ExecutorLoopState × Option PlannerOut :=
  match callResult with
  | none => (st, none)
  | some p =>
      let sig := plannerSignature p
      match st.lastPlannerOutput with
      | some last =>
          if last ≠ "" ∧ last = sig then
            let c := st.repetitiveActionCount + 1
            if c ≥ maxRepetitiveActions then
              ({ st with repetitiveActionCount := c }, some forceCompletionPlan)
            else
              ({ st with repetitiveActionCount := c }, some p)
          else
            ({ lastPlannerOutput := some sig, repetitiveActionCount := 0 }, some p)
      | none =>
          ({ lastPlannerOutput := some sig, repetitiveActionCount := 0 }, some p)

/-- The five error classes rethrown by Executor.navigate. -/
inductive FatalKind where
  | auth
  | forbidden
  | urlNotAllowed
  | cancelled
  | extensionConflict
deriving Repr, DecidableEq

/-- One navigator call as seen by Executor.navigate: either
navigator.execute() throws (classified fatal or not), or it returns an
AgentOutput with an optional error message, a done flag, and the observed
URL-change fingerprint around the call. -/
inductive NavCall where
  | thrown (fatal : Option FatalKind)
  | output (error : Bool) (done : Bool) (urlChanged : Bool)
deriving Repr, DecidableEq

/-- An error thrown out of Executor.navigate: a rethrown fatal error or the
maxFailures Error. -/
inductive ExecError where
  | fatal (k : FatalKind)
  | maxFailuresReached
deriving Repr, DecidableEq

/-- The mutable executor fields touched by navigate. -/
structure ExecState where
  nSteps : Nat
  consecutiveFailures : Nat
  loopSt : ExecutorLoopState
deriving Repr, DecidableEq

/-- The executor configuration from AgentOptions. -/
structure ExecConfig where
  maxSteps : Nat
  maxFailures : Nat
  planningInterval : Nat
deriving Repr, DecidableEq

/-- Executor.navigate from executor.ts: a URL change resets the repetition
counter; a returned output counts a step; a returned error is thrown and
caught as non-fatal; fatal classes are rethrown; non-fatal failures increment
consecutiveFailures and throw the maxFailures Error at the threshold; success
resets consecutiveFailures and reports the navigator done flag. A thrown
error carries the executor state at the throw, since the field mutations made
before it survive (they are writes to the shared context). -/
def navigateStep (cfg : ExecConfig) (st : ExecState) (call : NavCall) :
    Except (ExecError × ExecState) (ExecState × Bool) :=
  match call with
  | .thrown (some k) => .error (.fatal k, st)
  | .thrown none =>
      let st1 := { st with consecutiveFailures := st.consecutiveFailures + 1 }
      if st1.consecutiveFailures ≥ cfg.maxFailures then .error (.maxFailuresReached, st1)
      else .ok (st1, false)
  | .output err done urlChanged =>
      let st1 :=
        if urlChanged then
          { st with loopSt := { st.loopSt with repetitiveActionCount := 0 } }
        else st
      let st2 := { st1 with nSteps := st1.nSteps + 1 }
      if err then
        let st3 := { st2 with consecutiveFailures := st2.consecutiveFailures + 1 }
        if st3.consecutiveFailures ≥ cfg.maxFailures then .error (.maxFailuresReached, st3)
        else .ok (st3, false)
      else
        .ok ({ st2 with consecutiveFailures := 0 }, done)

/-- The terminal event of a run, from the status determination at the end of
Executor.execute and its catch branch. -/
inductive RunStatus where
  | taskOk (finalMessage : Option String)
  | taskFailMaxSteps
  | taskFail (e : ExecError)
  | taskCancel
  | taskPause
deriving Repr, DecidableEq

/-- The loop-carried data of Executor.execute, with the remaining scripted
planner and navigator call results. -/
structure LoopAcc where
  st : ExecState
  navigatorDone : Bool
  latestPlanDone : Bool
  finalAnswer : Option String
  plannerCalls : Nat
  ps : List (Option PlannerOut)
  ns : List NavCall
deriving Repr, DecidableEq

/-- The for loop of Executor.execute, with the remaining step budget as fuel.
Returns the final accumulator and whether the budget was exhausted (loop
condition reached, step = maxSteps) rather than broken. -/
def execLoop (cfg : ExecConfig) : Nat → LoopAcc → Except (ExecError × LoopAcc) (LoopAcc × Bool)
  | 0, acc => .ok (acc, true)
  | Nat.succ fuel, acc =>
      if acc.st.consecutiveFailures ≥ cfg.maxFailures then .ok (acc, false)
      else
        let doPlan := decide (acc.st.nSteps % cfg.planningInterval = 0) || acc.navigatorDone
        let afterPlan :=
          if doPlan then
            let pr := runPlannerStep acc.st.loopSt (acc.ps.headD none)
            { acc with
              st := { acc.st with loopSt := pr.1 },
              ps := acc.ps.tail,
              plannerCalls := acc.plannerCalls + 1,
              navigatorDone := false,
              latestPlanDone :=
                (match pr.2 with
                  | some p => p.done
                  | none => false),
              finalAnswer :=
                (match pr.2 with
                  | some p =>
                      if p.done && p.final_answer ≠ "" then some p.final_answer
                      else acc.finalAnswer
                  | none => acc.finalAnswer) }
          else acc
        if afterPlan.latestPlanDone && doPlan then .ok (afterPlan, false)
        else
          match navigateStep cfg afterPlan.st (afterPlan.ns.headD (.thrown none)) with
          | .error (e, stErr) => .error (e, { afterPlan with st := stErr })
          | .ok (st', navDone) =>
              execLoop cfg fuel
                { afterPlan with st := st', ns := afterPlan.ns.tail, navigatorDone := navDone }

/-- Executor.execute from executor.ts over scripted planner and navigator
call results: run the loop, then determine the terminal event (TASK_OK with
the stored final answer, max-steps TASK_FAIL, thrown-error TASK_FAIL or
TASK_CANCEL for the cancelled class, and the residual pause branch). Returns
the status, the number of planner calls made, and nSteps. -/
def runExecutor (cfg : ExecConfig) (ps : List (Option PlannerOut)) (ns : List NavCall) :
    RunStatus × Nat × Nat :=
  let init : LoopAcc :=
    { st := { nSteps := 0, consecutiveFailures := 0,
              loopSt := { lastPlannerOutput := none, repetitiveActionCount := 0 } },
      navigatorDone := false, latestPlanDone := false, finalAnswer := none,
      plannerCalls := 0, ps := ps, ns := ns }
  match execLoop cfg cfg.maxSteps init with
  | .error (e, acc) =>
      ((if e = .fatal .cancelled then .taskCancel else .taskFail e),
       acc.plannerCalls, acc.st.nSteps)
  | .ok (acc, exhausted) =>
      if acc.latestPlanDone then (.taskOk acc.finalAnswer, acc.plannerCalls, acc.st.nSteps)
      else if exhausted then (.taskFailMaxSteps, acc.plannerCalls, acc.st.nSteps)
      else (.taskPause, acc.plannerCalls, acc.st.nSteps)
/-- A sample schema-failing planner record: done given as the string "true". -/
def plannerStringDoneSample : List (String × JVal) :=
  [("observation", .str "o"), ("done", .str "true"), ("challenges", .str ""),
   ("next_steps", .str "n"), ("final_answer", .null), ("reasoning", .str "r"),
   ("web_task", .str "true")]

/-- A sample schema-passing planner record with a non-boolean string web_task. -/
def plannerStringWebTaskSample : List (String × JVal) :=
  [("observation", .str "o"), ("done", .bool true), ("challenges", .str ""),
   ("next_steps", .str "n"), ("final_answer", .null), ("reasoning", .str "r"),
   ("web_task", .str "not-a-boolean")]

/-- A sample planner record with both boolean fields as coercible strings. -/
def plannerCoerceSample : List (String × JVal) :=
  [("observation", .str "o"), ("challenges", .str "c"), ("done", .str "TRUE"),
   ("next_steps", .str "n"), ("final_answer", .str "f"), ("reasoning", .str "r"),
   ("web_task", .str "False")]

/-- The parse result of `plannerCoerceSample` under plannerOutputSchema. -/
def plannerCoerceOut : PlannerOut :=
  { observation := "o", done := true, challenges := "c", next_steps := "n",
    final_answer := "f", reasoning := "r", web_task := false }

/-- A sample fully valid planner record. -/
def plannerValidSample : List (String × JVal) :=
  [("observation", .str "ok"), ("done", .bool true), ("challenges", .str "c"),
   ("next_steps", .str "n"), ("final_answer", .null), ("reasoning", .str "r"),
   ("web_task", .bool true)]

/-- A sample partially valid planner record: only done present, plus an extra
key. -/
def plannerPartialSample : List (String × JVal) :=
  [("done", JVal.bool true), ("extra", JVal.num 1)]

/-- A sample structured output value for invocation-adapter runs. -/
def invokeSampleOut : JVal := .obj [("ok", .bool true)]

/-- A sample planner plan with a fixed signature and done false. -/
def planA : PlannerOut :=
  { observation := "obs", done := false, challenges := "", next_steps := "s",
    final_answer := "", reasoning := "r", web_task := true }

/-- The loop-detection state at executor construction. -/
def initLoopState : ExecutorLoopState :=
  { lastPlannerOutput := none, repetitiveActionCount := 0 }

/-- A three-step configuration with planning on every step. -/
def cfgRepeat3 : ExecConfig := { maxSteps := 3, maxFailures := 3, planningInterval := 1 }

/-- A ten-step configuration with planning on every step. -/
def cfgRepeat10 : ExecConfig := { maxSteps := 10, maxFailures := 3, planningInterval := 1 }

/-- A ten-step configuration with the default planning interval. -/
def cfgFail : ExecConfig := { maxSteps := 10, maxFailures := 3, planningInterval := 5 }

/-- The monitor counter state at process start. -/
def monitorStartState : MonitorState :=
  { responseCount := 0, successCount := 0, correctionCount := 0, failureCount := 0,
    monitoringActive := true }

/-- A fresh executor state. -/
def stLow : ExecState := { nSteps := 0, consecutiveFailures := 0, loopSt := initLoopState }

/-- An executor state whose next failure reaches the threshold. -/
def stHigh : ExecState := { nSteps := 5, consecutiveFailures := 9, loopSt := initLoopState }
/-! Helper lemmas about property lookup, overwrite and spread. -/

theorem getField_isSome_any (o : List (String × JVal)) (k : String) :
    (getField o k).isSome = o.any (fun p => decide (p.1 = k)) := by
  induction o with
  | nil => rfl
  | cons p rest ih =>
    rcases p with ⟨k', v⟩
    by_cases h : k' = k
    · simp [getField, h]
    · simp [getField, h, ih]

theorem getField_eq_none_of_any_false {o : List (String × JVal)} {k : String}
    (h : (o.any fun p => decide (p.1 = k)) = false) :
    getField o k = none := by
  cases ho : getField o k with
  | none => rfl
  | some v =>
    have hs := getField_isSome_any o k
    rw [ho, h] at hs
    simp at hs

theorem getField_append (a b : List (String × JVal)) (k : String) :
    getField (a ++ b) k = (getField a k).or (getField b k) := by
  induction a with
  | nil => simp [getField]
  | cons p rest ih =>
    rcases p with ⟨k', v⟩
    by_cases h : k' = k
    · simp [getField, h]
    · simp [getField, h, ih]

theorem getField_map_set_self (o : List (String × JVal)) (k : String) (v : JVal)
    (h : o.any (fun p => decide (p.1 = k)) = true) :
    getField (setFieldMap k v o) k = some v := by
  induction o with
  | nil => simp at h
  | cons p rest ih =>
    rcases p with ⟨k', v'⟩
    by_cases hk : k' = k
    · simp [setFieldMap, hk, getField]
    · simp only [List.any_cons, Bool.or_eq_true, decide_eq_true_eq] at h
      have h' : (rest.any fun p => decide (p.1 = k)) = true := by
        rcases h with h | h
        · exact absurd h hk
        · exact h
      simp [setFieldMap, hk, getField, ih h']

theorem getField_map_set_other (o : List (String × JVal)) (k k' : String) (v : JVal)
    (hne : k' ≠ k) :
    getField (setFieldMap k v o) k' = getField o k' := by
  induction o with
  | nil => rfl
  | cons p rest ih =>
    rcases p with ⟨k₀, v₀⟩
    by_cases hk : k₀ = k
    · have h1 : ¬ (k = k') := fun hh => hne hh.symm
      have h2 : ¬ (k₀ = k') := by rw [hk]; exact h1
      simp [setFieldMap, hk, getField, h1, h2, ih]
    · by_cases hk' : k₀ = k'
      · simp [setFieldMap, hk, getField, hk', hne, ih]
      · simp [setFieldMap, hk, getField, hk', ih]

theorem getField_setField_self (o : List (String × JVal)) (k : String) (v : JVal) :
    getField (setField o k v) k = some v := by
  unfold setField
  cases h : o.any (fun p => decide (p.1 = k)) with
  | true => simp [getField_map_set_self o k v h]
  | false =>
    have hnone : getField o k = none := getField_eq_none_of_any_false h
    simp [getField_append, hnone, getField]

theorem getField_setField_other (o : List (String × JVal)) (k k' : String) (v : JVal)
    (hne : k' ≠ k) :
    getField (setField o k v) k' = getField o k' := by
  unfold setField
  cases h : o.any (fun p => decide (p.1 = k)) with
  | true => simp [getField_map_set_other o k k' v hne]
  | false =>
    have hb : getField [(k, v)] k' = none := by
      have h1 : ¬ (k = k') := fun hh => hne hh.symm
      simp [getField, h1]
    simp [getField_append, hb]

theorem getField_spreadInto (data : List (String × JVal)) (base : List (String × JVal))
    (k : String) (hu : uniqKeysB data = true) :
    getField (spreadInto base data) k = (getField data k).or (getField base k) := by
  induction data generalizing base with
  | nil => simp [spreadInto, getField]
  | cons p rest ih =>
    rcases p with ⟨k₀, v₀⟩
    simp only [uniqKeysB, Bool.and_eq_true, Bool.not_eq_true'] at hu
    have hrest : uniqKeysB rest = true := hu.2
    have hstep : spreadInto base ((k₀, v₀) :: rest) = spreadInto (setField base k₀ v₀) rest := by
      simp [spreadInto]
    rw [hstep, ih (setField base k₀ v₀) hrest]
    by_cases hk : k₀ = k
    · subst hk
      have hnone : getField rest k₀ = none := getField_eq_none_of_any_false hu.1
      simp [hnone, getField, getField_setField_self]
    · have hne : k ≠ k₀ := fun h => hk h.symm
      simp [getField, hk, getField_setField_other base k₀ k v₀ hne]

theorem getField_mem {o : List (String × JVal)} {k : String} {v : JVal}
    (h : getField o k = some v) : (k, v) ∈ o := by
  induction o with
  | nil => simp [getField] at h
  | cons p rest ih =>
    rcases p with ⟨k', v'⟩
    by_cases hk : k' = k
    · subst hk
      simp [getField] at h
      subst h
      exact List.mem_cons_self _ _
    · simp [getField, hk] at h
      exact List.mem_cons_of_mem _ (ih h)

theorem jsOr_of_none {data : List (String × JVal)} {k : String} {d : JVal}
    (h : getField data k = none) : jsOr data k d = d := by
  simp [jsOr, h]

theorem jsNullish_of_none {data : List (String × JVal)} {k : String} {d : JVal}
    (h : getField data k = none) : jsNullish data k d = d := by
  simp [jsNullish, h]

theorem isStrOpt_some (v : JVal) : isStrOpt (some v) = isStr v := by
  cases v <;> rfl

theorem isBoolOpt_some (v : JVal) : isBoolOpt (some v) = isBool v := by
  cases v <;> rfl

theorem isBoolOpt_true {x : Option JVal} (h : isBoolOpt x = true) :
    ∃ b, x = some (.bool b) := by
  cases x with
  | none => simp [isBoolOpt] at h
  | some v =>
    cases v with
    | bool b => exact ⟨b, rfl⟩
    | null => simp [isBoolOpt] at h
    | num n => simp [isBoolOpt] at h
    | str s => simp [isBoolOpt] at h
    | arr xs => simp [isBoolOpt] at h
    | obj o => simp [isBoolOpt] at h

theorem check_of_or {check : Option JVal → Bool} {x : Option JVal} {skelVal : JVal}
    (hx : ∀ v, x = some v → check (some v) = true)
    (hnone : x = none → check (some skelVal) = true) :
    check (x.or (some skelVal)) = true := by
  cases h : x with
  | some v => simpa [Option.or] using hx v h
  | none => simpa [Option.or] using hnone h

theorem plannerOutputParseFields_bools {o : List (String × JVal)} {p : PlannerOut}
    (h : plannerOutputParseFields o = some p) :
    (getField o "done").bind coerceBoolField = some p.done
    ∧ (getField o "web_task").bind coerceBoolField = some p.web_task := by
  unfold plannerOutputParseFields at h
  split at h
  · rename_i x1 x2 x3 x4 x5 x6 x7 obs ch dn ns fa rs wt h1 h2 h3 h4 h5 h6 h7
    injection h with h0
    subst h0
    exact ⟨h3, h7⟩
  · cases h

theorem validateResponse_total_aux (extract : ExtractOutcome) (raw : String)
    (ty : ExpectedType) (ctx : Option String) :
    (validateResponse extract raw ty ctx).isValid = true
    ∧ (validateResponse extract raw ty ctx).validatedData.isSome = true := by
  unfold validateResponse
  cases extract with
  | failed errs => exact ⟨rfl, rfl⟩
  | extracted data =>
    dsimp only
    by_cases h1 : truthy data = false
    · rw [if_pos h1]; exact ⟨rfl, rfl⟩
    · rw [if_neg h1]
      by_cases h2 : validateAgainstSchema data (resolveAgentKind raw ty ctx) = false
      · rw [if_pos h2]; exact ⟨rfl, rfl⟩
      · rw [if_neg h2]; exact ⟨rfl, rfl⟩

/-! Claim theorems. -/

/-- C9: every return path of validateResponse reports isValid true and a
populated validatedData, for every extraction outcome, raw input, role hint
and context: the validator never hands its caller an unusable result. -/
theorem validateResponse_always_valid (extract : ExtractOutcome) (raw : String)
    (ty : ExpectedType) (ctx : Option String) :
    (validateResponse extract raw ty ctx).isValid = true
    ∧ (validateResponse extract raw ty ctx).validatedData.isSome = true :=
  validateResponse_total_aux extract raw ty ctx

/-- C2: the resolution pipeline never raises to its caller. validateResponse
is total (a function in this embedding) and on every path returns a valid
result with data; when the monitored try block crashes, monitorResponse
increments only its counters and returns the emergency default result, which
is itself valid and carries a corrected record. -/
theorem monitor_absorbs_failures (st : MonitorState) (extract : ExtractOutcome)
    (raw : String) (ty : ExpectedType) (ctx : Option String) (err : String)
    (hact : st.monitoringActive = true) :
    ((monitorResponseRun st extract raw ty ctx).2.isValid = true
      ∧ (monitorResponseRun st extract raw ty ctx).2.validatedData.isSome = true)
  ∧ monitorResponse st raw (.error err) ty
      = ({ st with responseCount := st.responseCount + 1,
                   failureCount := st.failureCount + 1 },
         createEmergencyResult raw ty err)
  ∧ (createEmergencyResult raw ty err).isValid = true
  ∧ (createEmergencyResult raw ty err).correctedResponse.isSome = true := by
  refine ⟨?_, ?_, rfl, ?_⟩
  · have h2 : (monitorResponseRun st extract raw ty ctx).2
        = validateResponse extract raw ty ctx := by
      simp [monitorResponseRun, monitorResponse, hact]
    rw [h2]
    exact validateResponse_total_aux extract raw ty ctx
  · simp [monitorResponse, hact]
  · cases ty <;> rfl

/-- C2 witness at a concrete state and input. -/
theorem monitor_absorbs_failures_witness :
    (monitorStartState.monitoringActive = true)
    ∧ (monitorResponseRun monitorStartState (.failed []) "plain text" .auto none).2.isValid
        = true
    ∧ (createEmergencyResult "plain text" .auto "boom").isValid = true :=
  ⟨rfl,
   ((monitor_absorbs_failures monitorStartState (.failed []) "plain text" .auto none
      "boom" rfl).1).1,
   (monitor_absorbs_failures monitorStartState (.failed []) "plain text" .auto none
      "boom" rfl).2.2.1⟩

/-- C10: monitor counter discipline. An enabled call increments responseCount
by one and exactly one of correction (corrected response present) or success
counters; a crashed call increments responseCount and failureCount; the sum
invariant responseCount = success + correction + failure is preserved; a
disabled call changes nothing and returns the bypass result; resetStatistics
zeroes all four counters. -/
theorem monitor_counter_invariant (st : MonitorState) (extract : ExtractOutcome)
    (raw : String) (ty : ExpectedType) (ctx : Option String) (err : String)
    (hact : st.monitoringActive = true)
    (hinv : st.responseCount = st.successCount + st.correctionCount + st.failureCount) :
    ((monitorResponseRun st extract raw ty ctx).1.responseCount = st.responseCount + 1
      ∧ (if (validateResponse extract raw ty ctx).correctedResponse.isSome then
           (monitorResponseRun st extract raw ty ctx).1.correctionCount = st.correctionCount + 1
             ∧ (monitorResponseRun st extract raw ty ctx).1.successCount = st.successCount
             ∧ (monitorResponseRun st extract raw ty ctx).1.failureCount = st.failureCount
         else
           (monitorResponseRun st extract raw ty ctx).1.successCount = st.successCount + 1
             ∧ (monitorResponseRun st extract raw ty ctx).1.correctionCount = st.correctionCount
             ∧ (monitorResponseRun st extract raw ty ctx).1.failureCount = st.failureCount)
      ∧ (monitorResponseRun st extract raw ty ctx).1.responseCount =
          (monitorResponseRun st extract raw ty ctx).1.successCount
            + (monitorResponseRun st extract raw ty ctx).1.correctionCount
            + (monitorResponseRun st extract raw ty ctx).1.failureCount)
  ∧ ((monitorResponse st raw (.error err) ty).1.responseCount = st.responseCount + 1
      ∧ (monitorResponse st raw (.error err) ty).1.failureCount = st.failureCount + 1
      ∧ (monitorResponse st raw (.error err) ty).1.successCount = st.successCount
      ∧ (monitorResponse st raw (.error err) ty).1.correctionCount = st.correctionCount
      ∧ (monitorResponse st raw (.error err) ty).1.responseCount =
          (monitorResponse st raw (.error err) ty).1.successCount
            + (monitorResponse st raw (.error err) ty).1.correctionCount
            + (monitorResponse st raw (.error err) ty).1.failureCount)
  ∧ (∀ st2 : MonitorState, st2.monitoringActive = false →
      (monitorResponseRun st2 extract raw ty ctx).1 = st2
        ∧ (monitorResponseRun st2 extract raw ty ctx).2 = createBypassResult raw)
  ∧ ((resetStatistics st).responseCount = 0 ∧ (resetStatistics st).successCount = 0
      ∧ (resetStatistics st).correctionCount = 0 ∧ (resetStatistics st).failureCount = 0) := by
  have hval := (validateResponse_total_aux extract raw ty ctx).1
  refine ⟨?_, ?_, ?_, rfl, rfl, rfl, rfl⟩
  · by_cases hc : (validateResponse extract raw ty ctx).correctedResponse.isSome
    · simp [monitorResponseRun, monitorResponse, hact, hval, hc]
      omega
    · simp [monitorResponseRun, monitorResponse, hact, hval, hc]
      omega
  · simp [monitorResponse, hact]
    omega
  · intro st2 h2
    constructor <;> simp [monitorResponseRun, monitorResponse, h2]

/-- C10 witness at a concrete state and input. -/
theorem monitor_counter_invariant_witness :
    (monitorStartState.monitoringActive = true)
    ∧ (monitorStartState.responseCount
        = monitorStartState.successCount + monitorStartState.correctionCount
          + monitorStartState.failureCount)
    ∧ (monitorResponseRun monitorStartState (.failed []) "" .auto none).1.responseCount
        = monitorStartState.responseCount + 1 :=
  ⟨rfl, rfl,
   (monitor_counter_invariant monitorStartState (.failed []) "" .auto none "boom"
      rfl rfl).1.1⟩

/-- C8 counterexample: the source classifier also scores the keyword done,
which is not in the spec keyword sets; on the input consisting of that word
alone the source returns navigator while the spec rule returns Planner. -/
theorem detectAgentType_done_keyword_counterexample :
    detectAgentType "done" none = AgentKind.navigator
    ∧ detectAgentTypeClaim "done" = AgentKind.planner := ⟨by decide, by decide⟩

/-- C8 amended: with the navigator keyword set of the source, which is the
spec set plus the keyword done, the hint-free, context-free classifier is
exactly the claimed scoring rule: case-insensitive keyword hits, Navigator
exactly on a strictly higher score, Planner on ties and all-zero scores. -/
theorem detectAgentType_matches_amended (response : String) :
    detectAgentType response none = detectAgentTypeAmended response := by
  have hnav : strContains "" "navigator" = false := by decide
  have hl9 : strContains "" "L9." = false := by decide
  have hpla : strContains "" "planner" = false := by decide
  have hd9 : strContains "" "D9." = false := by decide
  unfold detectAgentType detectAgentTypeAmended
  simp [hnav, hl9, hpla, hd9, List.countP_eq_length_filter]

/-- C7 counterexample: the validator plannerSchema rejects done given as the
string "true" (so string booleans are not accepted there), yet accepts an
arbitrary string web_task without coercion, and validateResponse then passes
that record through unchanged: an accepted record whose web_task is not a
boolean. -/
theorem plannerSchema_string_bool_counterexample :
    validateAgainstSchema (.obj plannerStringDoneSample) .planner = false
    ∧ validateAgainstSchema (.obj plannerStringWebTaskSample) .planner = true
    ∧ (validateResponse (.extracted (.obj plannerStringWebTaskSample)) "" .planner
        none).validatedData = some (.obj plannerStringWebTaskSample) := by
  refine ⟨by decide, by decide, ?_⟩
  rfl

/-- C7 amended: the boolean coercion of case-insensitive "true"/"false"
strings lives in plannerOutputSchema (planner.ts): its parse coerces done and
web_task through coerceBoolField, so its outputs carry genuine booleans. The
validator plannerSchema instead requires done to be a literal boolean and
accepts web_task as a boolean or arbitrary uncoerced string. -/
theorem planner_bool_coercion_split (o : List (String × JVal)) (b : Bool) (s : String)
    (p : PlannerOut) :
    (coerceBoolField (.bool b) = some b)
  ∧ (coerceBoolField (.str s) =
      if toLowerStr s = "true" then some true
      else if toLowerStr s = "false" then some false else none)
  ∧ (plannerOutputParse (.obj o) = some p →
      ∃ v, getField o "done" = some v ∧ coerceBoolField v = some p.done)
  ∧ (plannerOutputParse (.obj o) = some p →
      ∃ v, getField o "web_task" = some v ∧ coerceBoolField v = some p.web_task)
  ∧ (plannerSchemaValid (.obj o) = true → ∃ b2, getField o "done" = some (.bool b2))
  ∧ (plannerSchemaValid (.obj o) = true →
      ∃ v, getField o "web_task" = some v ∧ isBoolOrStrOpt (some v) = true) := by
  refine ⟨rfl, rfl, ?_, ?_, ?_, ?_⟩
  · intro h
    have hd := (plannerOutputParseFields_bools h).1
    cases hgd : getField o "done" with
    | none => rw [hgd] at hd; simp at hd
    | some v =>
      rw [hgd] at hd
      simp at hd
      exact ⟨v, rfl, hd⟩
  · intro h
    have hw := (plannerOutputParseFields_bools h).2
    cases hgw : getField o "web_task" with
    | none => rw [hgw] at hw; simp at hw
    | some v =>
      rw [hgw] at hw
      simp at hw
      exact ⟨v, rfl, hw⟩
  · intro h
    simp only [plannerSchemaValid, Bool.and_eq_true] at h
    exact isBoolOpt_true h.1.1.1.1.1.2
  · intro h
    simp only [plannerSchemaValid, Bool.and_eq_true] at h
    have hw := h.2
    cases hgw : getField o "web_task" with
    | none => rw [hgw] at hw; simp [isBoolOrStrOpt] at hw
    | some v =>
      rw [hgw] at hw
      exact ⟨v, rfl, hw⟩

/-- C7 witness: a record with done "TRUE" and web_task "False" parses under
plannerOutputSchema with coerced booleans, and the schema-passing record with
a string web_task keeps it a string. -/
theorem planner_bool_coercion_split_witness :
    (plannerOutputParse (.obj plannerCoerceSample) = some plannerCoerceOut)
    ∧ (∃ v, getField plannerCoerceSample "done" = some v ∧ coerceBoolField v = some true)
    ∧ (plannerSchemaValid (.obj plannerStringWebTaskSample) = true)
    ∧ (∃ v, getField plannerStringWebTaskSample "web_task" = some v
        ∧ isBoolOrStrOpt (some v) = true) :=
  ⟨rfl,
   (planner_bool_coercion_split plannerCoerceSample true "x" plannerCoerceOut).2.2.1 rfl,
   by decide,
   (planner_bool_coercion_split plannerStringWebTaskSample true "x"
      plannerCoerceOut).2.2.2.2.2 (by decide)⟩

/-- C1 counterexample: fixInvalidJSON ends with a spread of the whole input,
so the invalid present fields of the claim (a non-boolean done, an empty
action array, a non-object current_state) survive repair and the output
violates the role contract. -/
theorem fixInvalidJSON_contract_counterexample :
    plannerContract (.obj (fixInvalidJSON [("done", JVal.num 3)] .planner)) = false
    ∧ navigatorContract (.obj (fixInvalidJSON [("action", JVal.arr [])] .navigator)) = false
    ∧ navigatorContract (.obj (fixInvalidJSON [("current_state", JVal.str "broken")]
        .navigator)) = false :=
  ⟨by decide, by decide, by decide⟩

/-- C1 amended: when every field present in the input record is individually
valid for its role (absent fields unconstrained), fixInvalidJSON returns a
record satisfying the full role contract: present fields are preserved by the
trailing spread and absent or falsy fields receive the documented defaults. -/
theorem fixInvalidJSON_contract_of_validFields (data : List (String × JVal)) (t : AgentKind)
    (hu : uniqKeysB data = true)
    (hvalid : data.all (fun p => roleFieldValid t p.1 p.2) = true) :
    roleContract t (.obj (fixInvalidJSON data t)) = true := by
  have hfield : ∀ k v, getField data k = some v → roleFieldValid t k v = true := by
    intro k v h
    exact List.all_eq_true.mp hvalid ⟨k, v⟩ (getField_mem h)
  cases t with
  | planner =>
    have hs : ∀ k, getField (fixInvalidJSON data .planner) k
        = (getField data k).or (getField (plannerFixSkeleton data) k) := fun k =>
      getField_spreadInto data (plannerFixSkeleton data) k hu
    show (isStrOpt (getField (fixInvalidJSON data .planner) "observation")
        && isBoolOpt (getField (fixInvalidJSON data .planner) "done")
        && isStrOpt (getField (fixInvalidJSON data .planner) "challenges")
        && isStrOpt (getField (fixInvalidJSON data .planner) "next_steps")
        && isStrOrNullOpt (getField (fixInvalidJSON data .planner) "final_answer")
        && isStrOpt (getField (fixInvalidJSON data .planner) "reasoning")
        && isBoolOpt (getField (fixInvalidJSON data .planner) "web_task")) = true
    have hobs : isStrOpt (getField (fixInvalidJSON data .planner) "observation") = true := by
      rw [hs "observation",
        show getField (plannerFixSkeleton data) "observation"
          = some (jsOr data "observation" (.str "AI response received but incomplete")) from rfl]
      refine check_of_or ?_ ?_
      · intro v h
        have hv := hfield "observation" v h
        simp [roleFieldValid, plannerFieldValid] at hv
        simp [isStrOpt_some, hv]
      · intro h
        rw [jsOr_of_none h]
        rfl
    have hdone : isBoolOpt (getField (fixInvalidJSON data .planner) "done") = true := by
      rw [hs "done",
        show getField (plannerFixSkeleton data) "done"
          = some (jsNullish data "done" (.bool false)) from rfl]
      refine check_of_or ?_ ?_
      · intro v h
        have hv := hfield "done" v h
        simp [roleFieldValid, plannerFieldValid] at hv
        simp [isBoolOpt_some, hv]
      · intro h
        rw [jsNullish_of_none h]
        rfl
    have hchal : isStrOpt (getField (fixInvalidJSON data .planner) "challenges") = true := by
      rw [hs "challenges",
        show getField (plannerFixSkeleton data) "challenges"
          = some (jsOr data "challenges" (.str "")) from rfl]
      refine check_of_or ?_ ?_
      · intro v h
        have hv := hfield "challenges" v h
        simp [roleFieldValid, plannerFieldValid] at hv
        simp [isStrOpt_some, hv]
      · intro h
        rw [jsOr_of_none h]
        rfl
    have hnext : isStrOpt (getField (fixInvalidJSON data .planner) "next_steps") = true := by
      rw [hs "next_steps",
        show getField (plannerFixSkeleton data) "next_steps"
          = some (jsOr data "next_steps" (.str "Continue with task execution")) from rfl]
      refine check_of_or ?_ ?_
      · intro v h
        have hv := hfield "next_steps" v h
        simp [roleFieldValid, plannerFieldValid] at hv
        simp [isStrOpt_some, hv]
      · intro h
        rw [jsOr_of_none h]
        rfl
    have hfinal : isStrOrNullOpt (getField (fixInvalidJSON data .planner) "final_answer")
        = true := by
      rw [hs "final_answer",
        show getField (plannerFixSkeleton data) "final_answer"
          = some (jsOr data "final_answer" (.str "")) from rfl]
      refine check_of_or ?_ ?_
      · intro v h
        have hv := hfield "final_answer" v h
        simp [roleFieldValid, plannerFieldValid] at hv
        exact hv
      · intro h
        rw [jsOr_of_none h]
        rfl
    have hreas : isStrOpt (getField (fixInvalidJSON data .planner) "reasoning") = true := by
      rw [hs "reasoning",
        show getField (plannerFixSkeleton data) "reasoning"
          = some (jsOr data "reasoning" (.str "Processing user request")) from rfl]
      refine check_of_or ?_ ?_
      · intro v h
        have hv := hfield "reasoning" v h
        simp [roleFieldValid, plannerFieldValid] at hv
        simp [isStrOpt_some, hv]
      · intro h
        rw [jsOr_of_none h]
        rfl
    have hweb : isBoolOpt (getField (fixInvalidJSON data .planner) "web_task") = true := by
      rw [hs "web_task",
        show getField (plannerFixSkeleton data) "web_task"
          = some (jsNullish data "web_task" (.bool true)) from rfl]
      refine check_of_or ?_ ?_
      · intro v h
        have hv := hfield "web_task" v h
        simp [roleFieldValid, plannerFieldValid] at hv
        simp [isBoolOpt_some, hv]
      · intro h
        rw [jsNullish_of_none h]
        rfl
    simp [hobs, hdone, hchal, hnext, hfinal, hreas, hweb]
  | navigator =>
    have hs : ∀ k, getField (fixInvalidJSON data .navigator) k
        = (getField data k).or (getField (navigatorFixSkeleton data) k) := fun k =>
      getField_spreadInto data (navigatorFixSkeleton data) k hu
    show (brainFieldOk (getField (fixInvalidJSON data .navigator) "current_state")
        && actionFieldNonEmpty (getField (fixInvalidJSON data .navigator) "action")) = true
    have hcs : brainFieldOk (getField (fixInvalidJSON data .navigator) "current_state")
        = true := by
      rw [hs "current_state",
        show getField (navigatorFixSkeleton data) "current_state"
          = some (jsOr data "current_state" navigatorDefaultState) from rfl]
      refine check_of_or ?_ ?_
      · intro v h
        have hv := hfield "current_state" v h
        simp [roleFieldValid, navigatorFieldValid] at hv
        simpa [brainFieldOk] using hv
      · intro h
        rw [jsOr_of_none h]
        rfl
    have hact : actionFieldNonEmpty (getField (fixInvalidJSON data .navigator) "action")
        = true := by
      rw [hs "action",
        show getField (navigatorFixSkeleton data) "action"
          = some (jsOr data "action" navigatorDefaultActions) from rfl]
      refine check_of_or ?_ ?_
      · intro v h
        have hv := hfield "action" v h
        simp [roleFieldValid, navigatorFieldValid] at hv
        exact hv
      · intro h
        rw [jsOr_of_none h]
        rfl
    simp [hcs, hact]

/-- C1 witness at a record with one valid present field and one extra key. -/
theorem fixInvalidJSON_contract_of_validFields_witness :
    (uniqKeysB plannerPartialSample = true)
    ∧ (plannerPartialSample.all (fun p => roleFieldValid .planner p.1 p.2) = true)
    ∧ roleContract .planner (.obj (fixInvalidJSON plannerPartialSample .planner)) = true :=
  ⟨by decide, by decide,
   fixInvalidJSON_contract_of_validFields plannerPartialSample .planner
     (by decide) (by decide)⟩

/-- C6: repairing a record that already satisfies the role schema of
validateAgainstSchema returns it unchanged field for field: every key reads
back the same value, so no field is added, dropped or altered. -/
theorem fixInvalidJSON_idempotent (data : List (String × JVal)) (t : AgentKind)
    (hu : uniqKeysB data = true)
    (hv : validateAgainstSchema (.obj data) t = true) (k : String) :
    getField (fixInvalidJSON data t) k = getField data k := by
  cases t with
  | planner =>
    rw [show fixInvalidJSON data .planner = spreadInto (plannerFixSkeleton data) data from rfl,
      getField_spreadInto data (plannerFixSkeleton data) k hu]
    cases h : getField data k with
    | some v => rfl
    | none =>
      simp only [validateAgainstSchema, plannerSchemaValid, Bool.and_eq_true] at hv
      obtain ⟨⟨⟨⟨⟨⟨h1, h2⟩, h3⟩, h4⟩, h5⟩, h6⟩, h7⟩ := hv
      have hnone : getField (plannerFixSkeleton data) k = none := by
        simp only [plannerFixSkeleton, getField]
        split_ifs with e1 e2 e3 e4 e5 e6 e7
        · subst e1; rw [h] at h1; simp [isStrOpt] at h1
        · subst e2; rw [h] at h2; simp [isBoolOpt] at h2
        · subst e3; rw [h] at h3; simp [isStrOpt] at h3
        · subst e4; rw [h] at h4; simp [isStrOpt] at h4
        · subst e5; rw [h] at h5; simp [isStrOrNullOpt] at h5
        · subst e6; rw [h] at h6; simp [isStrOpt] at h6
        · subst e7; rw [h] at h7; simp [isBoolOrStrOpt] at h7
        · rfl
      rw [hnone]
      rfl
  | navigator =>
    rw [show fixInvalidJSON data .navigator = spreadInto (navigatorFixSkeleton data) data from rfl,
      getField_spreadInto data (navigatorFixSkeleton data) k hu]
    cases h : getField data k with
    | some v => rfl
    | none =>
      simp only [validateAgainstSchema, navigatorSchemaValid, Bool.and_eq_true] at hv
      obtain ⟨h1, h2⟩ := hv
      have hnone : getField (navigatorFixSkeleton data) k = none := by
        simp only [navigatorFixSkeleton, getField]
        split_ifs with e1 e2
        · subst e1; rw [h] at h1; simp [brainFieldOk] at h1
        · subst e2; rw [h] at h2; simp [actionFieldRecords] at h2
        · rfl
      rw [hnone]
      rfl

/-- C6 witness at a concrete valid planner record and the done key. -/
theorem fixInvalidJSON_idempotent_witness :
    (uniqKeysB plannerValidSample = true)
    ∧ (validateAgainstSchema (.obj plannerValidSample) .planner = true)
    ∧ getField (fixInvalidJSON plannerValidSample .planner) "done"
        = getField plannerValidSample "done" :=
  ⟨by decide, by decide,
   fixInvalidJSON_idempotent plannerValidSample .planner (by decide) (by decide) "done"⟩

/-- C4 counterexample: on the structured path only isAbortedError is checked
before the G4F fallback, so an authentication or forbidden failure with the
G4F provider is absorbed into the manual fallback (flag cleared, manual
result returned) instead of propagating as the claim orders. -/
theorem invoke_auth_g4f_fallback_counterexample :
    invokeAgent true "g4f" (.failed (.other "401 Authentication failed"))
        (.ok (some invokeSampleOut)) = .ok (false, invokeSampleOut)
    ∧ invokeAgent true "g4f" (.failed (.other "403 Forbidden"))
        (.ok (some invokeSampleOut)) = .ok (false, invokeSampleOut) := ⟨rfl, rfl⟩

/-- C4 amended: a Cancelled (aborted) structured-path failure propagates
immediately; any other failure with the G4F provider permanently clears the
structured flag and completes the call on the manual path without re-invoking
(a flag-false call runs the manual path for any structured outcome); with any
other provider the error propagates wrapped; and setWithStructuredOutput
starts every G4F instance on the manual path. -/
theorem invoke_structured_failure_handling {α : Type} (provider : String) (m : String)
    (manual : Except LLMError (Option α)) (structured : StructuredOutcome α)
    (modelName : String) (hprov : provider ≠ "g4f") :
    (invokeAgent true provider (.failed .aborted) manual
        = (.error .aborted : Except InvokeErrorK (Bool × α)))
  ∧ (invokeAgent true "g4f" (.failed (.other m)) manual = invokeManualPath false manual)
  ∧ (invokeAgent false provider structured manual = invokeManualPath false manual)
  ∧ (invokeAgent true provider (.failed (.other m)) manual
        = .error (.thrown ("Failed to invoke with structured output: " ++ m)))
  ∧ setWithStructuredOutput modelName "g4f" = false := by
  refine ⟨rfl, rfl, rfl, ?_, ?_⟩
  · simp [invokeAgent, hprov]
  · unfold setWithStructuredOutput
    split_ifs <;> first | rfl | simp_all

/-- C4 witness at a concrete non-G4F provider and message. -/
theorem invoke_structured_failure_handling_witness :
    ("openai" ≠ "g4f")
    ∧ invokeAgent true "openai" (.failed (.other "boom")) (.ok (some invokeSampleOut))
        = .error (.thrown ("Failed to invoke with structured output: " ++ "boom")) :=
  ⟨by decide,
   (invoke_structured_failure_handling "openai" "boom" (.ok (some invokeSampleOut))
     (.parsed invokeSampleOut) "gpt-4o" (by decide)).2.2.2.1⟩

/-- C3 counterexample: a run in which three consecutive planner calls produce
the identical signature "s" does not transition to Completed: with three
steps available it ends in the max-steps failure after exactly three planner
calls and no synthesized completion. -/
theorem repetition_three_calls_no_completion :
    runExecutor cfgRepeat3 (List.replicate 3 (some planA))
        (List.replicate 3 (.output false false false))
      = (.taskFailMaxSteps, 3, 3) := by decide

/-- C3 amended: the forced completion fires on the fourth consecutive planner
call with the same non-empty signature (the counter reaches three only then):
the second, third and fourth calls return the plan unchanged, the fourth is
replaced by the synthesized terminal plan with the claimed observation,
done and final_answer values, and a full run completes as TASK_OK with that
final answer after exactly four planner calls. -/
theorem repetition_fourth_call_completes (p : PlannerOut)
    (h : plannerSignature p ≠ "") :
    (runPlannerStep initLoopState (some p)).2 = some p
  ∧ (runPlannerStep (runPlannerStep initLoopState (some p)).1 (some p)).2 = some p
  ∧ (runPlannerStep (runPlannerStep (runPlannerStep initLoopState (some p)).1 (some p)).1
      (some p)).2 = some p
  ∧ (runPlannerStep (runPlannerStep (runPlannerStep (runPlannerStep initLoopState
      (some p)).1 (some p)).1 (some p)).1 (some p)).2 = some forceCompletionPlan
  ∧ forceCompletionPlan.done = true
  ∧ forceCompletionPlan.observation
      = "Detected repetitive behavior - completing task to prevent infinite loop"
  ∧ forceCompletionPlan.final_answer = "Task stopped to prevent infinite execution loop"
  ∧ runExecutor cfgRepeat10 (List.replicate 5 (some planA))
      (List.replicate 10 (.output false false false))
      = (.taskOk (some "Task stopped to prevent infinite execution loop"), 4, 3) := by
  have e1 : runPlannerStep initLoopState (some p)
      = ({ lastPlannerOutput := some (plannerSignature p), repetitiveActionCount := 0 },
         some p) := rfl
  have e2 : runPlannerStep
      { lastPlannerOutput := some (plannerSignature p), repetitiveActionCount := 0 } (some p)
      = ({ lastPlannerOutput := some (plannerSignature p), repetitiveActionCount := 1 },
         some p) := by
    unfold runPlannerStep
    dsimp only
    rw [if_pos ⟨h, rfl⟩]
    norm_num [maxRepetitiveActions]
  have e3 : runPlannerStep
      { lastPlannerOutput := some (plannerSignature p), repetitiveActionCount := 1 } (some p)
      = ({ lastPlannerOutput := some (plannerSignature p), repetitiveActionCount := 2 },
         some p) := by
    unfold runPlannerStep
    dsimp only
    rw [if_pos ⟨h, rfl⟩]
    norm_num [maxRepetitiveActions]
  have e4 : runPlannerStep
      { lastPlannerOutput := some (plannerSignature p), repetitiveActionCount := 2 } (some p)
      = ({ lastPlannerOutput := some (plannerSignature p), repetitiveActionCount := 3 },
         some forceCompletionPlan) := by
    unfold runPlannerStep
    dsimp only
    rw [if_pos ⟨h, rfl⟩]
    norm_num [maxRepetitiveActions]
  refine ⟨by rw [e1], by rw [e1, e2], by rw [e1, e2, e3], by rw [e1, e2, e3, e4],
    rfl, rfl, rfl, by decide⟩

/-- C3 witness at the concrete plan with signature "s". -/
theorem repetition_fourth_call_completes_witness :
    (plannerSignature planA ≠ "")
    ∧ (runPlannerStep (runPlannerStep (runPlannerStep (runPlannerStep initLoopState
        (some planA)).1 (some planA)).1 (some planA)).1 (some planA)).2
        = some forceCompletionPlan :=
  ⟨by decide, (repetition_fourth_call_completes planA (by decide)).2.2.2.1⟩

/-- C5: navigate error handling. The five fatal classes are rethrown with the
state untouched and terminate the run (TASK_CANCEL for the cancelled class,
TASK_FAIL otherwise); a successful call resets consecutiveFailures to 0;
every other failure increments it, throwing the maxFailures error at the
threshold; a run with maxFailures 3 and three consecutive non-fatal failures
fails with the maxFailures error after 3 steps, below maxSteps. -/
theorem navigate_failure_handling (cfg : ExecConfig) (st stHi : ExecState)
    (k : FatalKind) (d u : Bool)
    (hlt : st.consecutiveFailures + 1 < cfg.maxFailures)
    (hge : cfg.maxFailures ≤ stHi.consecutiveFailures + 1) :
    (navigateStep cfg st (.thrown (some k)) = .error (.fatal k, st))
  ∧ (navigateStep cfg stHi (.thrown (some k)) = .error (.fatal k, stHi))
  ∧ (∃ st2, navigateStep cfg st (.output false d u) = .ok (st2, d)
      ∧ st2.consecutiveFailures = 0 ∧ st2.nSteps = st.nSteps + 1)
  ∧ (∃ st2, navigateStep cfg st (.output true d u) = .ok (st2, false)
      ∧ st2.consecutiveFailures = st.consecutiveFailures + 1 ∧ st2.nSteps = st.nSteps + 1)
  ∧ (∃ st2, navigateStep cfg st (.thrown none) = .ok (st2, false)
      ∧ st2.consecutiveFailures = st.consecutiveFailures + 1 ∧ st2.nSteps = st.nSteps)
  ∧ (∃ st2, navigateStep cfg stHi (.output true d u) = .error (.maxFailuresReached, st2)
      ∧ st2.consecutiveFailures = stHi.consecutiveFailures + 1)
  ∧ (∀ k2 : FatalKind, runExecutor cfgFail [some planA] [.thrown (some k2)]
      = ((if k2 = .cancelled then .taskCancel else .taskFail (.fatal k2)), 1, 0))
  ∧ (runExecutor cfgFail [some planA]
      [.output true false false, .output true false false, .output true false false]
      = (.taskFail .maxFailuresReached, 1, 3))
  ∧ ((3 : Nat) < cfgFail.maxSteps) := by
  have hnotge : ¬ (st.consecutiveFailures + 1 ≥ cfg.maxFailures) := by omega
  refine ⟨rfl, rfl, ?_, ?_, ?_, ?_, ?_, by decide, by decide⟩
  · cases u with
    | false =>
      exact ⟨{ st with nSteps := st.nSteps + 1, consecutiveFailures := 0 }, rfl, rfl, rfl⟩
    | true =>
      exact ⟨{ st with loopSt := { st.loopSt with repetitiveActionCount := 0 }, nSteps := st.nSteps + 1, consecutiveFailures := 0 }, rfl, rfl, rfl⟩
  · cases u with
    | false =>
      refine ⟨{ st with nSteps := st.nSteps + 1, consecutiveFailures := st.consecutiveFailures + 1 }, ?_, rfl, rfl⟩
      simp [navigateStep, hnotge]
    | true =>
      refine ⟨{ st with loopSt := { st.loopSt with repetitiveActionCount := 0 }, nSteps := st.nSteps + 1, consecutiveFailures := st.consecutiveFailures + 1 }, ?_, rfl, rfl⟩
      simp [navigateStep, hnotge]
  · refine ⟨{ st with consecutiveFailures := st.consecutiveFailures + 1 }, ?_, rfl, rfl⟩
    simp [navigateStep, hnotge]
  · cases u with
    | false =>
      refine ⟨{ stHi with nSteps := stHi.nSteps + 1, consecutiveFailures := stHi.consecutiveFailures + 1 }, ?_, rfl⟩
      simp [navigateStep, hge]
    | true =>
      refine ⟨{ stHi with loopSt := { stHi.loopSt with repetitiveActionCount := 0 }, nSteps := stHi.nSteps + 1, consecutiveFailures := stHi.consecutiveFailures + 1 }, ?_, rfl⟩
      simp [navigateStep, hge]
  · intro k2
    cases k2 <;> decide

/-- C5 witness at concrete states below and at the failure threshold. -/
theorem navigate_failure_handling_witness :
    (stLow.consecutiveFailures + 1 < cfgFail.maxFailures)
    ∧ (cfgFail.maxFailures ≤ stHigh.consecutiveFailures + 1)
    ∧ navigateStep cfgFail stLow (.thrown (some .auth)) = .error (.fatal .auth, stLow) :=
  ⟨by decide, by decide,
   (navigate_failure_handling cfgFail stLow stHigh .auth false false
      (by decide) (by decide)).1⟩
